import Mathlib

/-!
Verification development for the Echo exam platform.

The frontend (Vue) components are embedded as pure Lean functions over the
request/response record types declared in `frontend/src/types/api.ts`.
Each component's decision logic (polling, timeout handling, answer
submission bodies, phase transitions) is translated function by function.
The backend orchestrator is not part of the sources; where a property
depends on it, the relevant contract is modelled from the specification
and marked as such in its doc comment.
-/

namespace Echo

/-- JavaScript truthiness of an optional string: `undefined`/`null` and the
empty string are falsy. -/
def jsTruthyStr : Option String → Bool
  | none => false
  | some s => !(s == "")

/-- JavaScript `x || d` for an optional number (`undefined` and `0` are falsy). -/
def jsOrNat : Option Nat → Nat → Nat
  | none, d => d
  | some n, d => if n == 0 then d else n

/-- JavaScript `x || d` for an optional string (`null`/`undefined` and `""` are falsy). -/
def jsOrStr : Option String → String → String
  | none, d => d
  | some s, d => if s == "" then d else s

/-- `QuestionResult` from `frontend/src/types/api.ts`. JSON numbers are
modelled as rationals. -/
structure QuestionResult where
  question_index : Nat
  question_id : String
  question_type : String
  question_text : String
  score : Rat
  feedback : String
  explanation : Option String := none
  suggested_answer : Option String := none
  student_answer : Option String := none
  reference_answer : Option String := none
  student_audio_path : Option String := none
deriving Repr, DecidableEq

/-- `ExamResultsResponse` from `frontend/src/types/api.ts`. -/
structure ExamResultsResponse where
  session_id : String
  exam_title : String
  total_score : Rat
  max_score : Rat
  percentage : Rat
  total_questions : Nat
  processed_count : Nat
  all_processed : Bool
  duration_seconds : Rat
  start_time : String
  end_time : String
  question_results : List QuestionResult
deriving Repr, DecidableEq

/-- `SubmitAnswerRequest` from `frontend/src/types/api.ts`: the JSON body of
`POST /session/id/answer`; a missing field is `none`. -/
structure SubmitAnswerRequest where
  answer_text : Option String := none
  audio_data : Option String := none
deriving Repr, DecidableEq

namespace Results

/-- `POLLING_TIMEOUT` from `Results.vue` (milliseconds). -/
def POLLING_TIMEOUT : Nat := 60000

/-- The `results` section of the English table in `translations.js`.
Entries not present there (in particular the keys used by
`generateFailedQuestionResult`) are absent, so `translate` falls back to
returning the key itself, exactly as `useTranslations` does. -/
def translationsResultsEn : List (String × String) :=
  [("results.title", "Exam Results"),
   ("results.examCompleted", "Exam Completed!"),
   ("results.congratulations", "Congratulations on completing your exam!"),
   ("results.processing", "Processing \x7b0\x7d of \x7b1\x7d questions..."),
   ("results.processingAnswers", "Processing Your Answers"),
   ("results.analyzingResponses", "We're analyzing your responses and generating personalized feedback. This may take a moment."),
   ("results.yourResults", "Your Results"),
   ("results.finalScore", "Final Score"),
   ("results.timeTaken", "Time Taken"),
   ("results.score", "Score"),
   ("results.correct", "Correct"),
   ("results.incorrect", "Incorrect"),
   ("results.completed", "Completed"),
   ("results.viewDetails", "View Details"),
   ("results.newExam", "New Exam"),
   ("results.goHome", "Go Home"),
   ("results.noResults", "No results available"),
   ("results.outOf", "out of"),
   ("results.yourAnswer", "Your Answer:"),
   ("results.correctAnswer", "Correct Answer:"),
   ("results.feedback", "Feedback:"),
   ("results.explanation", "Explanation:"),
   ("results.suggestedAnswer", "Suggested Answer:"),
   ("results.playStudentAnswer", "Play Student Answer"),
   ("results.playing", "Playing..."),
   ("results.loadingResults", "Loading Results..."),
   ("results.finalizingResults", "Finalizing your exam results..."),
   ("results.startNewExam", "Start New Exam"),
   ("results.backToHome", "Back to Home"),
   ("results.notAnswered", "Not answered")]

/-- `translate` from `useTranslations` (English, no parameters): nested key
lookup that returns the key itself when no translation exists. -/
def translate (key : String) : String :=
  (translationsResultsEn.lookup key).getD key

/-- `generateFailedQuestionResult` from `Results.vue`. -/
def generateFailedQuestionResult (questionIndex : Nat) : QuestionResult :=
  { question_index := questionIndex
    question_id := "question_" ++ toString questionIndex
    question_type := "unknown"
    question_text := translate "results.questionProcessingFailed"
    score := 0
    feedback := translate "results.processingTimeout"
    explanation := some (translate "results.timeoutExplanation") }

/-- The payload transformation performed by `handleTimeout` in `Results.vue`
on a non-null `resultsData`: push a failed result for every index in
`0 .. total_questions - 1` that has no entry in `question_results`, sort by
`question_index` (JavaScript `Array.prototype.sort` is stable), and mark the
payload fully processed. -/
def handleTimeout (r : ExamResultsResponse) : ExamResultsResponse :=
  let processedIndices := r.question_results.map (fun q => q.question_index)
  let missing := (List.range r.total_questions).filter
    (fun i => !(processedIndices.contains i))
  let combined := r.question_results ++ missing.map generateFailedQuestionResult
  let sorted := combined.mergeSort (fun a b => a.question_index ≤ b.question_index)
  { r with question_results := sorted
           all_processed := true
           processed_count := r.total_questions }

/-- The reactive state of `Results.vue` that `loadResults` reads and writes. -/
structure ResultsView where
  score : Option Rat := none
  totalQuestions : Option Rat := none
  totalQuestionCount : Option Nat := none
  percentage : Option Int := none
  resultsData : Option ExamResultsResponse := none
  allProcessed : Bool := false
  processedCount : Nat := 0
  timeoutOccurred : Bool := false
  pollingStartTime : Option Nat := none
deriving Repr, DecidableEq

/-- Outcome of one `fetch` of `/session/id/results`: the promise rejected,
the response was not `ok`, or it was `ok` with a parsed body. -/
inductive FetchOutcome where
  | fetchError : FetchOutcome
  | httpError : Nat → FetchOutcome
  | ok : ExamResultsResponse → FetchOutcome
deriving Repr, DecidableEq

/-- Result of one invocation of `loadResults`: the updated component state
and whether `setTimeout(loadResults, 2000)` was scheduled again. -/
structure PollStep where
  state : ResultsView
  schedulesNextPoll : Bool
deriving Repr, DecidableEq

/-- The state update performed by `handleTimeout` in `Results.vue`: a null
`resultsData` is left untouched; otherwise the stored payload is replaced by
its `handleTimeout` transformation and `allProcessed` is set. -/
def handleTimeoutStep (st : ResultsView) : ResultsView :=
  match st.resultsData with
  | none => st
  | some r => { st with resultsData := some (handleTimeout r), allProcessed := true }

/-- One invocation of `loadResults` from `Results.vue`, parameterised by the
current clock value `now` (`Date.now()`) and the outcome of the fetch. The
`isCheckingStatus` re-entrancy guard is not modelled: one invocation runs to
completion. -/
def loadResults (st : ResultsView) (now : Nat) (fetch : FetchOutcome) : PollStep :=
  let start := match st.pollingStartTime with
    | some s => s
    | none => now
  let st1 := { st with pollingStartTime := some start }
  let elapsedTime := now - start
  if elapsedTime > POLLING_TIMEOUT && !st1.timeoutOccurred then
    { state := handleTimeoutStep { st1 with timeoutOccurred := true }
      schedulesNextPoll := false }
  else
    match fetch with
    | .ok data =>
      if st1.timeoutOccurred then
        { state := st1, schedulesNextPoll := false }
      else
        { state := { st1 with
            resultsData := some data
            score := some data.total_score
            totalQuestions := some data.max_score
            percentage := some (round data.percentage)
            allProcessed := data.all_processed
            processedCount := data.processed_count
            totalQuestionCount := some data.total_questions }
          schedulesNextPoll := !data.all_processed && !st1.timeoutOccurred }
    | .httpError _ =>
      if st1.timeoutOccurred then
        { state := st1, schedulesNextPoll := false }
      else
        { state := st1, schedulesNextPoll := !st1.timeoutOccurred }
    | .fetchError =>
      { state := st1, schedulesNextPoll := !st1.timeoutOccurred }

end Results

/-- The client-side current-question object assembled by `getNextQuestion` in
`App.vue` (`...data.question` plus `question_index`, `is_last`,
`audio_file_path`, `time_limit`) and passed to the question components as the
`currentQuestion` prop. -/
structure ClientQuestion where
  id : String
  type : String
  text : String
  options : Option (List String) := none
  reference_answer : Option String := none
  question_index : Nat
  is_last : Bool
  audio_file_path : Option String := none
  time_limit : Option Nat := none
deriving Repr, DecidableEq

/-- `apiUrl` from the frontend api utility module: prefixes the configured
base URL. -/
def apiUrl (baseUrl path : String) : String := baseUrl ++ path

namespace MultipleChoice

/-- The action taken by the instruction phase of `MultipleChoice.vue`: play
the question's audio when `audio_file_path` is truthy, otherwise wait a fixed
3000 ms before the question phase. -/
inductive InstructionAction where
  | playAudio : String → InstructionAction
  | fallbackWait : Nat → InstructionAction
deriving Repr, DecidableEq

/-- `startInstructionPhase` from `MultipleChoice.vue` (the branch decision on
`props.currentQuestion.audio_file_path`). -/
def startInstructionPhase (q : ClientQuestion) : InstructionAction :=
  if jsTruthyStr q.audio_file_path then
    .playAudio (q.audio_file_path.getD "")
  else
    .fallbackWait 3000

/-- The state established by `startQuestionPhase` in `MultipleChoice.vue`:
the phase label, the initial countdown value `time_limit || 30`, and the
1000 ms tick of the countdown interval. -/
structure QuestionPhaseState where
  phase : String
  timeRemaining : Nat
  countdownIntervalMs : Nat
deriving Repr, DecidableEq

/-- `startQuestionPhase` from `MultipleChoice.vue`. -/
def startQuestionPhase (q : ClientQuestion) : QuestionPhaseState :=
  { phase := "question"
    timeRemaining := jsOrNat q.time_limit 30
    countdownIntervalMs := 1000 }

/-- The request body constructed by `submitToBackend` in
`MultipleChoice.vue`: `JSON.stringify(\x7b answer_text: answerText \x7d)`. -/
def submitToBackend (answerText : String) : SubmitAnswerRequest :=
  { answer_text := some answerText, audio_data := none }

/-- `submitAnswer` from `MultipleChoice.vue`: returns without submitting when
no option is selected, otherwise submits the selected option. -/
def submitAnswer (selectedOption : Option String) : Option SubmitAnswerRequest :=
  if jsTruthyStr selectedOption then
    some (submitToBackend (selectedOption.getD ""))
  else
    none

/-- The effect of `autoSubmit` in `MultipleChoice.vue`: enter the
auto-submit phase and, after a fixed delay, submit `selectedOption || ''`. -/
structure AutoSubmitStep where
  phase : String
  delayMs : Nat
  body : SubmitAnswerRequest
deriving Repr, DecidableEq

/-- `autoSubmit` from `MultipleChoice.vue`. -/
def autoSubmit (selectedOption : Option String) : AutoSubmitStep :=
  { phase := "auto-submit"
    delayMs := 1000
    body := submitToBackend (jsOrStr selectedOption "") }

end MultipleChoice

namespace HomePage

/-- The request body constructed by `submitToBackend` in the question
component embedded in `HomePage.vue` (a multiple-choice variant). -/
def submitToBackend (answerText : String) : SubmitAnswerRequest :=
  { answer_text := some answerText, audio_data := none }

/-- `autoSubmit` from the question component embedded in `HomePage.vue`. -/
def autoSubmit (selectedOption : Option String) : MultipleChoice.AutoSubmitStep :=
  { phase := "auto-submit"
    delayMs := 1000
    body := submitToBackend (jsOrStr selectedOption "") }

end HomePage

namespace QuickResponse

/-- The request body constructed by `submitAnswer` in `QuickResponse.vue`:
`JSON.stringify(\x7b audio_data: base64Audio \x7d)`. -/
def submitAnswer (base64Audio : String) : SubmitAnswerRequest :=
  { answer_text := none, audio_data := some base64Audio }

end QuickResponse

namespace ReadAloud

/-- The request body constructed by `submitAnswer` in the read-aloud
component. -/
def submitAnswer (base64Audio : String) : SubmitAnswerRequest :=
  { answer_text := none, audio_data := some base64Audio }

end ReadAloud

namespace Translation

/-- The request body constructed by `submitAnswer` in the translation
component. -/
def submitAnswer (base64Audio : String) : SubmitAnswerRequest :=
  { answer_text := none, audio_data := some base64Audio }

end Translation

namespace InstructionPage

/-- The request body constructed by `submitAnswer` in the voice component
embedded in `InstructionPage.vue`. -/
def submitAnswer (base64Audio : String) : SubmitAnswerRequest :=
  { answer_text := none, audio_data := some base64Audio }

end InstructionPage

namespace AudioTest

/-- The `audioGenerationStatus` ref of the audio-test component (initially
`unknown`). -/
inductive GenStatus where
  | unknown : GenStatus
  | generating : GenStatus
  | completed : GenStatus
deriving Repr, DecidableEq

/-- Result of one invocation of `checkSessionStatus`: the status written to
`audioGenerationStatus` and the delay of the rescheduled check, if any. -/
structure StatusCheck where
  audioGenerationStatus : GenStatus
  rescheduleDelayMs : Option Nat
deriving Repr, DecidableEq

/-- `checkSessionStatus` from the audio-test component: `resp` is the
`audio_generation` field of the response body, `none` when the fetch or the
JSON parse threw. Only the `generating` branch schedules another check. -/
def checkSessionStatus (resp : Option String) : StatusCheck :=
  match resp with
  | some v =>
    if v == "completed" then
      { audioGenerationStatus := .completed, rescheduleDelayMs := none }
    else if v == "generating" then
      { audioGenerationStatus := .generating, rescheduleDelayMs := some 2000 }
    else
      { audioGenerationStatus := .unknown, rescheduleDelayMs := none }
  | none => { audioGenerationStatus := .unknown, rescheduleDelayMs := none }

/-- `canStartExam` from the audio-test component; the start-exam button is
rendered with `disabled = !canStartExam()`. -/
def canStartExam (st : GenStatus) : Bool :=
  st == .completed || st == .unknown

end AudioTest

namespace App

/-- The navigation decided by `handleQuestionComplete` in `App.vue`. -/
inductive CompleteAction where
  | fetchNextQuestion : CompleteAction
  | showResults : CompleteAction
  | goHome : CompleteAction
deriving Repr, DecidableEq

/-- `handleQuestionComplete` from `App.vue`: on success, navigate to the
results page when `currentQuestion.value?.is_last` is truthy and fetch the
next question otherwise; on failure go home. -/
def handleQuestionComplete (success : Bool) (currentQuestion : Option ClientQuestion) :
    CompleteAction :=
  if success then
    match currentQuestion with
    | some q => if q.is_last then .showResults else .fetchNextQuestion
    | none => .fetchNextQuestion
  else
    .goHome

/-- The read `getNextQuestion` in `App.vue` performs to obtain the
instruction audio URL:
`data.instruct_audio_file_path ? apiUrl(data.instruct_audio_file_path) : null`,
applied to the parsed JSON response modelled as a list of string fields. -/
def getNextQuestion_currentInstructionAudio (baseUrl : String)
    (data : List (String × String)) : Option String :=
  let v := data.lookup "instruct_audio_file_path"
  if jsTruthyStr v then some (apiUrl baseUrl (v.getD "")) else none

/-- Modelled from the spec: the string-valued fields of the documented
`GET /session/id/question` response carrying a section instruction. The
server implementation is absent from the sources; the spec's interface list
and the repository's API documentation both name the instruction-audio field
`instruction_audio_file_path`, with the example value used here. -/
def documentedQuestionResponseFields : List (String × String) :=
  [("audio_file_path", "tts/bea39faa84a9823d21818aa1e104ecdd.mp3"),
   ("instruction_audio_file_path", "tts/f4496987dabd9f56fa5c336c2ab63ff0.mp3")]

end App

namespace Backend

/-- Modelled from the spec: the Grading Pipeline's answer validation.
"`submit(session_id, answer)` where `answer` is either free text or a
recorded-audio payload (exactly one must be present — receiving both or
neither is a validation error)". The backend implementation is absent from
the sources. -/
def validationError (req : SubmitAnswerRequest) : Bool :=
  (req.answer_text.isSome && req.audio_data.isSome) ||
    (req.answer_text.isNone && req.audio_data.isNone)

/-- Modelled from the spec: a QuestionResult written by the Grading
Pipeline — "numeric score (0 to a fixed per-question maximum), textual
feedback, optional explanation, optional suggested answer". -/
structure AggQuestionResult where
  score : Rat
  feedback : String
  explanation : Option String := none
  suggested_answer : Option String := none
deriving Repr, DecidableEq

/-- Modelled from the spec: the session's "mapping from question index →
QuestionResult (sparse; absent until graded)", represented positionally for
indices `0 .. total_questions - 1`. -/
structure AggSession where
  results : List (Option AggQuestionResult)
deriving Repr, DecidableEq

/-- Modelled from the spec: the Results Aggregator's `processed_count`, the
number of written QuestionResults. -/
def processed_count (s : AggSession) : Nat :=
  s.results.countP (fun o => o.isSome)

/-- Modelled from the spec: the Results Aggregator's `total_score` — it
"sums only the written results (unprocessed questions contribute zero until
written)". -/
def total_score (s : AggSession) : Rat :=
  (s.results.map (fun o => match o with
    | some qr => qr.score
    | none => 0)).sum

/-- Modelled from the spec: the only mutation of the result map between two
polls — the Grading Pipeline writes a QuestionResult at an index that has
none yet ("once written for an index, never overwritten"), with a score
between 0 and the per-question maximum. -/
inductive GradingStep : AggSession → AggSession → Prop where
  | write (s : AggSession) (i : Nat) (qr : AggQuestionResult)
      (hnone : s.results[i]? = some none)
      (hscore : 0 ≤ qr.score) :
      GradingStep s ⟨s.results.set i (some qr)⟩

/-- The session states reachable from `s` by background grading completions,
i.e. the states later polls of the Results Aggregator can observe. -/
def Reachable : AggSession → AggSession → Prop :=
  Relation.ReflTransGen GradingStep

end Backend

namespace Results

/-- The combined list `handleTimeout` builds before sorting. -/
def combinedResults (r : ExamResultsResponse) : List QuestionResult :=
  r.question_results ++
    ((List.range r.total_questions).filter
      (fun i => !((r.question_results.map (fun q => q.question_index)).contains i))).map
      generateFailedQuestionResult

lemma handleTimeout_question_results (r : ExamResultsResponse) :
    (handleTimeout r).question_results =
      (combinedResults r).mergeSort
        (fun a b => a.question_index ≤ b.question_index) := by
  simp [handleTimeout, combinedResults]

lemma mem_handleTimeout_iff (r : ExamResultsResponse) (qr : QuestionResult) :
    qr ∈ (handleTimeout r).question_results ↔ qr ∈ combinedResults r := by
  rw [handleTimeout_question_results]
  exact List.mem_mergeSort

lemma fabricated_mem (r : ExamResultsResponse) (i : Nat)
    (hi : i < r.total_questions)
    (habs : ∀ qr ∈ r.question_results, qr.question_index ≠ i) :
    generateFailedQuestionResult i ∈ (handleTimeout r).question_results := by
  rw [mem_handleTimeout_iff]
  unfold combinedResults
  refine List.mem_append_right _ ?_
  refine List.mem_map_of_mem generateFailedQuestionResult ?_
  refine List.mem_filter.mpr ⟨List.mem_range.mpr hi, ?_⟩
  simp only [Bool.not_eq_eq_eq_not, Bool.not_true, List.contains, List.elem_eq_mem,
    decide_eq_false_iff_not, List.mem_map, not_exists, not_and]
  intro qr hqr
  exact habs qr hqr

lemma handleTimeout_covers (r : ExamResultsResponse) (i : Nat)
    (hi : i < r.total_questions) :
    ∃ qr ∈ (handleTimeout r).question_results, qr.question_index = i := by
  by_cases hmem : ∃ qr ∈ r.question_results, qr.question_index = i
  · obtain ⟨qr, hqr, hidx⟩ := hmem
    refine ⟨qr, ?_, hidx⟩
    rw [mem_handleTimeout_iff]
    exact List.mem_append_left _ hqr
  · push_neg at hmem
    exact ⟨generateFailedQuestionResult i, fabricated_mem r i hi hmem, rfl⟩

lemma handleTimeout_sorted (r : ExamResultsResponse) :
    List.Pairwise (fun a b => a.question_index ≤ b.question_index)
      (handleTimeout r).question_results := by
  rw [handleTimeout_question_results]
  have h := @List.sorted_mergeSort QuestionResult
    (fun a b : QuestionResult => decide (a.question_index ≤ b.question_index))
    (fun a b c hab hbc => by
      simp only [decide_eq_true_eq] at *
      omega)
    (fun a b => by
      simp only [Bool.or_eq_true, decide_eq_true_eq]
      omega)
    (combinedResults r)
  exact h.imp (fun hab => by simpa using hab)

lemma handleTimeout_all_processed (r : ExamResultsResponse) :
    (handleTimeout r).all_processed = true := by
  simp [handleTimeout]

lemma handleTimeout_processed_count (r : ExamResultsResponse) :
    (handleTimeout r).processed_count = r.total_questions := by
  simp [handleTimeout]

end Results

namespace Backend

lemma countP_set_isSome (l : List (Option AggQuestionResult)) (i : Nat)
    (qr : AggQuestionResult) (h : l[i]? = some none) :
    (l.set i (some qr)).countP (fun o => o.isSome) =
      l.countP (fun o => o.isSome) + 1 := by
  induction l generalizing i with
  | nil => simp at h
  | cons a t ih =>
    cases i with
    | zero =>
      obtain rfl : a = none := by simpa using h
      simp [List.countP_cons]
    | succ n =>
      have ht : t[n]? = some none := by simpa using h
      simp [List.countP_cons, ih n ht]
      omega

lemma sum_set_score (l : List (Option AggQuestionResult)) (i : Nat)
    (qr : AggQuestionResult) (h : l[i]? = some none) (hscore : 0 ≤ qr.score) :
    (l.map (fun o => match o with
      | some q => q.score
      | none => 0)).sum ≤
    ((l.set i (some qr)).map (fun o => match o with
      | some q => q.score
      | none => 0)).sum := by
  induction l generalizing i with
  | nil => simp at h
  | cons a t ih =>
    cases i with
    | zero =>
      obtain rfl : a = none := by simpa using h
      simp only [List.set, List.map_cons, List.sum_cons]
      exact add_le_add_right hscore _
    | succ n =>
      have ht : t[n]? = some none := by simpa using h
      simp only [List.set, List.map_cons, List.sum_cons]
      exact add_le_add_left (ih n ht) _

lemma GradingStep.processed_count_le {s s' : AggSession} (h : GradingStep s s') :
    processed_count s ≤ processed_count s' := by
  cases h with
  | write i qr hnone hscore =>
    unfold processed_count
    rw [countP_set_isSome s.results i qr hnone]
    omega

lemma GradingStep.total_score_le {s s' : AggSession} (h : GradingStep s s') :
    total_score s ≤ total_score s' := by
  cases h with
  | write i qr hnone hscore =>
    exact sum_set_score s.results i qr hnone hscore

end Backend

/-- A concrete graded result used to exercise the definitions. -/
def sampleGradedResult : QuestionResult :=
  { question_index := 0
    question_id := "q1"
    question_type := "multiple_choice"
    question_text := "What is 2+2?"
    score := 4
    feedback := "Correct" }

/-- A concrete partially processed results payload: two questions, one
graded. -/
def sampleResults : ExamResultsResponse :=
  { session_id := "s1"
    exam_title := "Sample Exam"
    total_score := 4
    max_score := 10
    percentage := 40
    total_questions := 2
    processed_count := 1
    all_processed := false
    duration_seconds := 30
    start_time := "2026-01-01T00:00:00"
    end_time := ""
    question_results := [sampleGradedResult] }

/-- A concrete `Results.vue` state that has been polling since t = 1000 ms
and holds `sampleResults` as the last received payload. -/
def samplePollState : Results.ResultsView :=
  { resultsData := some sampleResults
    pollingStartTime := some 1000 }

/-- A concrete current question carrying `is_last = true`. -/
def sampleLastQuestion : ClientQuestion :=
  { id := "q3"
    type := "multiple_choice"
    text := "Choose A"
    question_index := 2
    is_last := true }

/-- A concrete multiple-choice question left without synthesized audio. -/
def sampleNoAudioQuestion : ClientQuestion :=
  { id := "q1"
    type := "multiple_choice"
    text := "Choose B"
    question_index := 0
    is_last := false
    audio_file_path := none
    time_limit := some 30 }

/-- A concrete two-question session with nothing graded yet. -/
def sampleAggStart : Backend.AggSession := ⟨[none, none]⟩

/-- A concrete grading outcome. -/
def sampleAggQR : Backend.AggQuestionResult := { score := 3, feedback := "good" }

/-- `sampleAggStart` after the Grading Pipeline wrote index 0. -/
def sampleAggDone : Backend.AggSession := ⟨[some sampleAggQR, none]⟩

/-- C1: once more than 60 seconds (`POLLING_TIMEOUT`) have elapsed since the
client began polling the results endpoint, the next `loadResults` invocation
stops polling (no rescheduled poll), records the timeout, and replaces the
last received payload by its `handleTimeout` transformation, which contains a
synthesized placeholder result for every question index absent from the
received `question_results` and hence a result for every index below
`total_questions`. -/
theorem C1_polling_timeout_fabricates_results
    (st : Results.ResultsView) (now : Nat) (fetch : Results.FetchOutcome)
    (r : ExamResultsResponse) (start : Nat)
    (hstart : st.pollingStartTime = some start)
    (helapsed : now - start > Results.POLLING_TIMEOUT)
    (hto : st.timeoutOccurred = false)
    (hdata : st.resultsData = some r) :
    (Results.loadResults st now fetch).schedulesNextPoll = false ∧
    (Results.loadResults st now fetch).state.timeoutOccurred = true ∧
    (Results.loadResults st now fetch).state.resultsData =
      some (Results.handleTimeout r) ∧
    (∀ i, i < r.total_questions →
      (∀ qr ∈ r.question_results, qr.question_index ≠ i) →
        Results.generateFailedQuestionResult i ∈
          (Results.handleTimeout r).question_results) ∧
    (∀ i, i < r.total_questions →
      ∃ qr ∈ (Results.handleTimeout r).question_results, qr.question_index = i) := by
  refine ⟨?_, ?_, ?_, fun i hi habs => Results.fabricated_mem r i hi habs,
    fun i hi => Results.handleTimeout_covers r i hi⟩ <;>
  simp [Results.loadResults, Results.handleTimeoutStep, hstart, hto, hdata, helapsed]

/-- Witness for C1 at a concrete state: polling began at 1000 ms, the clock
reads 62000 ms, and a two-question payload with only index 0 graded was
received. -/
theorem C1_witness :
    (Results.loadResults samplePollState 62000 .fetchError).schedulesNextPoll = false ∧
    (Results.loadResults samplePollState 62000 .fetchError).state.timeoutOccurred = true ∧
    (Results.loadResults samplePollState 62000 .fetchError).state.resultsData =
      some (Results.handleTimeout sampleResults) ∧
    (∀ i, i < sampleResults.total_questions →
      (∀ qr ∈ sampleResults.question_results, qr.question_index ≠ i) →
        Results.generateFailedQuestionResult i ∈
          (Results.handleTimeout sampleResults).question_results) ∧
    (∀ i, i < sampleResults.total_questions →
      ∃ qr ∈ (Results.handleTimeout sampleResults).question_results,
        qr.question_index = i) :=
  C1_polling_timeout_fabricates_results samplePollState 62000 .fetchError
    sampleResults 1000 rfl (by decide) rfl rfl

/-- C2: every answer-submission body a question component constructs carries
exactly one of `answer_text` and `audio_data` — the multiple-choice variants
send only `answer_text`, the voice variants only `audio_data` — so the
validation-error branch of the spec's Grading Pipeline (both present or
neither present) is false on each of them. -/
theorem C2_submission_bodies_exactly_one_field (answerText base64Audio : String) :
    (MultipleChoice.submitToBackend answerText).answer_text = some answerText ∧
    (MultipleChoice.submitToBackend answerText).audio_data = none ∧
    Backend.validationError (MultipleChoice.submitToBackend answerText) = false ∧
    (HomePage.submitToBackend answerText).answer_text = some answerText ∧
    (HomePage.submitToBackend answerText).audio_data = none ∧
    Backend.validationError (HomePage.submitToBackend answerText) = false ∧
    (QuickResponse.submitAnswer base64Audio).answer_text = none ∧
    (QuickResponse.submitAnswer base64Audio).audio_data = some base64Audio ∧
    Backend.validationError (QuickResponse.submitAnswer base64Audio) = false ∧
    (ReadAloud.submitAnswer base64Audio).answer_text = none ∧
    (ReadAloud.submitAnswer base64Audio).audio_data = some base64Audio ∧
    Backend.validationError (ReadAloud.submitAnswer base64Audio) = false ∧
    (Translation.submitAnswer base64Audio).answer_text = none ∧
    (Translation.submitAnswer base64Audio).audio_data = some base64Audio ∧
    Backend.validationError (Translation.submitAnswer base64Audio) = false ∧
    (InstructionPage.submitAnswer base64Audio).answer_text = none ∧
    (InstructionPage.submitAnswer base64Audio).audio_data = some base64Audio ∧
    Backend.validationError (InstructionPage.submitAnswer base64Audio) = false := by
  simp [MultipleChoice.submitToBackend, HomePage.submitToBackend,
    QuickResponse.submitAnswer, ReadAloud.submitAnswer, Translation.submitAnswer,
    InstructionPage.submitAnswer, Backend.validationError]

/-- C3: across the session states later polls of the Results Aggregator can
observe (reachable by background grading writes), both `processed_count` and
`total_score` are monotonically non-decreasing. -/
theorem C3_aggregator_monotone (s s' : Backend.AggSession)
    (h : Backend.Reachable s s') :
    Backend.processed_count s ≤ Backend.processed_count s' ∧
    Backend.total_score s ≤ Backend.total_score s' := by
  have h' : Relation.ReflTransGen Backend.GradingStep s s' := h
  clear h
  induction h' with
  | refl => exact ⟨le_refl _, le_refl _⟩
  | tail hab hbc ih =>
    exact ⟨le_trans ih.1 hbc.processed_count_le, le_trans ih.2 hbc.total_score_le⟩

/-- Witness for C3: a two-question session before and after grading of index
0 completes. -/
theorem C3_witness :
    Backend.processed_count sampleAggStart ≤ Backend.processed_count sampleAggDone ∧
    Backend.total_score sampleAggStart ≤ Backend.total_score sampleAggDone :=
  C3_aggregator_monotone sampleAggStart sampleAggDone
    (Relation.ReflTransGen.single
      (Backend.GradingStep.write sampleAggStart 0 sampleAggQR rfl (by decide)))

/-- C4: after a successful submission, `handleQuestionComplete` fetches the
next question exactly when the answered question's `is_last` flag was false,
and navigates to the results view when it was true. -/
theorem C4_fetch_next_iff_not_last (q : ClientQuestion) :
    (App.handleQuestionComplete true (some q) =
        App.CompleteAction.fetchNextQuestion ↔ q.is_last = false) ∧
    (q.is_last = true →
      App.handleQuestionComplete true (some q) = App.CompleteAction.showResults) := by
  cases hq : q.is_last <;> simp [App.handleQuestionComplete, hq]

/-- Witness for C4 at a concrete last question. -/
theorem C4_witness :
    App.handleQuestionComplete true (some sampleLastQuestion) =
      App.CompleteAction.showResults :=
  (C4_fetch_next_iff_not_last sampleLastQuestion).2 rfl

/-- C5: a `generating` audio-status response makes the client schedule
another check after 2000 ms with the start-exam control disabled, while a
`completed` response stops the polling and enables starting the exam. -/
theorem C5_generating_repolls_and_disables_start :
    AudioTest.checkSessionStatus (some "generating") =
      ⟨AudioTest.GenStatus.generating, some 2000⟩ ∧
    AudioTest.canStartExam AudioTest.GenStatus.generating = false ∧
    AudioTest.checkSessionStatus (some "completed") =
      ⟨AudioTest.GenStatus.completed, none⟩ ∧
    AudioTest.canStartExam AudioTest.GenStatus.completed = true := by
  decide

/-- C6: a multiple-choice question without an `audio_file_path` degrades to a
fixed 3000 ms wait in the instruction phase, after which the question phase
starts with the 1000 ms countdown interval and `time_limit || 30` seconds
remaining. -/
theorem C6_missing_audio_fixed_fallback (q : ClientQuestion)
    (h : q.audio_file_path = none) :
    MultipleChoice.startInstructionPhase q =
      MultipleChoice.InstructionAction.fallbackWait 3000 ∧
    (MultipleChoice.startQuestionPhase q).phase = "question" ∧
    (MultipleChoice.startQuestionPhase q).timeRemaining = jsOrNat q.time_limit 30 ∧
    (MultipleChoice.startQuestionPhase q).countdownIntervalMs = 1000 := by
  refine ⟨?_, rfl, rfl, rfl⟩
  simp [MultipleChoice.startInstructionPhase, h, jsTruthyStr]

/-- Witness for C6 at a concrete audio-less question. -/
theorem C6_witness :
    MultipleChoice.startInstructionPhase sampleNoAudioQuestion =
      MultipleChoice.InstructionAction.fallbackWait 3000 ∧
    (MultipleChoice.startQuestionPhase sampleNoAudioQuestion).phase = "question" ∧
    (MultipleChoice.startQuestionPhase sampleNoAudioQuestion).timeRemaining =
      jsOrNat sampleNoAudioQuestion.time_limit 30 ∧
    (MultipleChoice.startQuestionPhase sampleNoAudioQuestion).countdownIntervalMs = 1000 :=
  C6_missing_audio_fixed_fallback sampleNoAudioQuestion rfl

/-- C7: the documented `GET /session/id/question` response carries the
instruction audio path under `instruction_audio_file_path`, but the read
`getNextQuestion` performs (`data.instruct_audio_file_path`) misses it: on
the documented response the client obtains `null` for every base URL even
though the field is present. -/
theorem C7_instruction_audio_field_mismatch :
    (∀ baseUrl : String,
      App.getNextQuestion_currentInstructionAudio baseUrl
        App.documentedQuestionResponseFields = none) ∧
    App.documentedQuestionResponseFields.lookup "instruction_audio_file_path" =
      some "tts/f4496987dabd9f56fa5c336c2ab63ff0.mp3" :=
  ⟨fun _ => rfl, rfl⟩

/-- C8: `handleTimeout` on a received payload marks it fully processed, sets
`processed_count` to `total_questions`, leaves `question_results` sorted by
ascending `question_index`, covers every index below `total_questions`, and
gives every index absent from the received results a fabricated entry with
score 0 and question type `unknown`. -/
theorem C8_handleTimeout_postconditions (r : ExamResultsResponse) :
    (Results.handleTimeout r).all_processed = true ∧
    (Results.handleTimeout r).processed_count = r.total_questions ∧
    List.Pairwise (fun a b => a.question_index ≤ b.question_index)
      (Results.handleTimeout r).question_results ∧
    (∀ i, i < r.total_questions →
      ∃ qr ∈ (Results.handleTimeout r).question_results, qr.question_index = i) ∧
    (∀ i, i < r.total_questions →
      (∀ qr ∈ r.question_results, qr.question_index ≠ i) →
      ∃ qr ∈ (Results.handleTimeout r).question_results,
        qr.question_index = i ∧ qr.score = 0 ∧ qr.question_type = "unknown") :=
  ⟨Results.handleTimeout_all_processed r,
   Results.handleTimeout_processed_count r,
   Results.handleTimeout_sorted r,
   fun i hi => Results.handleTimeout_covers r i hi,
   fun i hi habs => ⟨Results.generateFailedQuestionResult i,
     Results.fabricated_mem r i hi habs, rfl, rfl, rfl⟩⟩

/-- Witness for C8 at a concrete payload whose index 1 was never graded. -/
theorem C8_witness :
    (Results.handleTimeout sampleResults).processed_count = 2 ∧
    ∃ qr ∈ (Results.handleTimeout sampleResults).question_results,
      qr.question_index = 1 ∧ qr.score = 0 ∧ qr.question_type = "unknown" :=
  ⟨(C8_handleTimeout_postconditions sampleResults).2.1,
   (C8_handleTimeout_postconditions sampleResults).2.2.2.2 1 (by decide) (by decide)⟩

/-- C9: when the countdown expires, `autoSubmit` enters the auto-submit
phase, waits 1000 ms, and submits `selectedOption || ''`: the body always
carries an `answer_text` field and no `audio_data`, and with no option
selected the submitted `answer_text` is the empty string — in both the
`MultipleChoice.vue` component and the copy embedded in `HomePage.vue`. -/
theorem C9_auto_submit_empty_answer :
    (∀ sel : Option String,
      (MultipleChoice.autoSubmit sel).phase = "auto-submit" ∧
      (MultipleChoice.autoSubmit sel).delayMs = 1000 ∧
      ((MultipleChoice.autoSubmit sel).body.answer_text).isSome = true ∧
      (MultipleChoice.autoSubmit sel).body.audio_data = none ∧
      HomePage.autoSubmit sel = MultipleChoice.autoSubmit sel) ∧
    (MultipleChoice.autoSubmit none).body.answer_text = some "" ∧
    (HomePage.autoSubmit none).body.answer_text = some "" :=
  ⟨fun _ => ⟨rfl, rfl, rfl, rfl, rfl⟩, rfl, rfl⟩

/-- C10: an audio-status response that is neither `completed` nor
`generating`, or a failed request, sets the status to `unknown` without
rescheduling the check; `canStartExam` holds for `unknown`, and the start
control is disabled exactly when the status is `generating`. -/
theorem C10_unknown_status_never_blocks :
    (∀ s : String, s ≠ "completed" → s ≠ "generating" →
      AudioTest.checkSessionStatus (some s) =
        ⟨AudioTest.GenStatus.unknown, none⟩) ∧
    AudioTest.checkSessionStatus none = ⟨AudioTest.GenStatus.unknown, none⟩ ∧
    AudioTest.canStartExam AudioTest.GenStatus.unknown = true ∧
    (∀ st : AudioTest.GenStatus,
      AudioTest.canStartExam st = false ↔ st = AudioTest.GenStatus.generating) := by
  refine ⟨?_, rfl, rfl, ?_⟩
  · intro s h1 h2
    simp [AudioTest.checkSessionStatus, h1, h2]
  · intro st
    cases st <;> simp [AudioTest.canStartExam]

/-- Witness for C10 at a concrete malformed status value. -/
theorem C10_witness :
    AudioTest.checkSessionStatus (some "error") =
      ⟨AudioTest.GenStatus.unknown, none⟩ :=
  C10_unknown_status_never_blocks.1 "error" (by decide) (by decide)

end Echo
